import Mathlib

/-!
Shallow embedding of the MaynoothPaperPrep scraping pipeline
(`src/scraper.py`: `Scraper.__init__`, `Scraper.start`,
`Scraper.download_paper`).

HTTP traffic and HTML parsing are modelled by an `Env` record holding the
parsed artifacts the code actually inspects (the landing page's
`form_build_id` input, the listing page's anchor hrefs, the status codes,
and the per-URL PDF responses).  The filesystem is an explicit record of
created directories and written files.  The thread-per-paper download
stage is sequentialized: the code starts one thread per filtered link and
joins them all; every task's filesystem/progress effect is modelled in
list order.
-/

namespace MPP

/-- Characters of `needle` occur contiguously inside `hay`; model of the
Python substring test `needle in hay` used by the year filter. -/
def containsSub (needle : List Char) : List Char → Bool
  | [] => needle.isEmpty
  | c :: t => needle.isPrefixOf (c :: t) || containsSub needle t

/-- Model of Python `needle in hay` on strings. -/
def strContains (hay needle : String) : Bool :=
  containsSub needle.data hay.data

/-- Model of Python `s.endswith(suffix)`: case-sensitive exact suffix. -/
def strEndsWith (s suffix : String) : Bool :=
  suffix.data.isSuffixOf s.data

/-- Model of Python `s.split('/')` on a character list; `cur` holds the
(reversed) characters of the segment being read. -/
def splitSlashAux (cur : List Char) : List Char → List (List Char)
  | [] => [cur.reverse]
  | c :: rest =>
      if c = '/' then cur.reverse :: splitSlashAux [] rest
      else splitSlashAux (c :: cur) rest

/-- Model of Python `url.split('/')[-1]`: the final path segment
(`split` always yields a nonempty list, so `[-1]` is total). -/
def lastSeg (s : String) : String :=
  ⟨(splitSlashAux [] s.data).getLastD []⟩

/-- Model of Python `min` over the allowed-years set of strings
(lexicographic order on code points; ties keep the earlier element).
Returns `none` on the empty collection, where Python raises ValueError. -/
def strSetMin : List String → Option String
  | [] => none
  | s :: rest => some (rest.foldl (fun a b => if b < a then b else a) s)

/-- Model of Python `max` over the allowed-years set of strings. -/
def strSetMax : List String → Option String
  | [] => none
  | s :: rest => some (rest.foldl (fun a b => if a < b then b else a) s)

/-- The landing page, as the code sees it through BeautifulSoup: the
`value` attribute of the first `<input name="form_build_id">`, if any. -/
structure LandingPage where
  formBuildId : Option String
deriving DecidableEq

/-- Response to a PDF GET: status code and body bytes. -/
structure DLResponse where
  statusCode : Nat
  content : List Nat
deriving DecidableEq

/-- The network environment one `start` call runs against: the parsed
landing page, the status of the login POST (were one issued), the status
and parsed anchors of the listing response for the queried module, and
the response to each candidate PDF GET. -/
structure Env where
  landing : LandingPage
  loginPostStatus : Nat
  listingStatus : Nat
  listingAnchors : List String
  pdf : String → DLResponse

/-- Filesystem state: directories created and files written (newest
association first; `os.path.isfile` is lookup success). -/
structure FS where
  dirs : List String
  files : List (String × List Nat)
deriving DecidableEq

/-- Model of `os.path.isfile`. -/
def FS.isFile (fs : FS) (p : String) : Bool :=
  (fs.files.lookup p).isSome

/-- Model of `os.path.exists` on the output directory. -/
def FS.dirExists (fs : FS) (p : String) : Bool :=
  fs.dirs.contains p

/-- Model of `os.makedirs` (parent entries elided: no claim inspects
intermediate directories). -/
def FS.mkdir (fs : FS) (p : String) : FS :=
  ⟨p :: fs.dirs, fs.files⟩

/-- Model of `open(path, "wb").write(content)`; the code only calls it on
paths that are not yet files. -/
def FS.writeFile (fs : FS) (p : String) (c : List Nat) : FS :=
  ⟨fs.dirs, (p, c) :: fs.files⟩

/-- Model of `Scraper.download_paper`: derive the filename and target
path, GET the URL, then either skip (file exists), write, or log the
failure; in every branch call `progress_update` exactly once.  Returns
the new filesystem and the number of progress-callback invocations this
task performed. -/
def download_paper (env : Env) (url output_folder module_code : String)
    (fs : FS) : FS × Nat :=
  let filename := lastSeg url
  let file_path := output_folder ++ "/" ++ module_code ++ "/papers/" ++ filename
  let response := env.pdf url
  if response.statusCode = 200 then
    if fs.isFile file_path then (fs, 1)
    else (fs.writeFile file_path response.content, 1)
  else (fs, 1)

/-- Sequentialization of the download stage: one `download_paper` task
per filtered link, threads joined at the end; effects applied in list
order, progress-callback invocations summed. -/
def runDownloads (env : Env) (output_folder module_code : String) :
    List String → FS → FS × Nat
  | [], fs => (fs, 0)
  | p :: rest, fs =>
      let r := download_paper env p output_folder module_code fs
      let r2 := runDownloads env output_folder module_code rest r.1
      (r2.1, r.2 + r2.2)

/-- Model of the PDF-link extraction loop in `Scraper.start`: keep, in
document order, every anchor href ending in `.pdf`. -/
def pdfLinks (anchors : List String) : List String :=
  anchors.filter (fun h => strEndsWith h ".pdf")

/-- Model of the inner `for year in allowed_years` loop with its `break`:
the first allowed year occurring as a substring of the filename. -/
def firstMatchingYear (years : List String) (filename : String) : Option String :=
  match years with
  | [] => none
  | y :: rest =>
      if strContains filename y then some y
      else firstMatchingYear rest filename

/-- Model of the year-filter loop in `Scraper.start`: append a candidate
once when some allowed year is a substring of its final path segment. -/
def filterByYears (years : List String) : List String → List String
  | [] => []
  | p :: rest =>
      match firstMatchingYear years (lastSeg p) with
      | some _ => p :: filterByYears years rest
      | none => filterByYears years rest

/-- Result of `Scraper.start`: Python returns `True` on success and an
error/message string otherwise. -/
inductive StartResult where
  | ok : StartResult
  | err : String → StartResult
deriving DecidableEq

/-- Observable outcome of one `start` call: its return value, the final
filesystem, the number of progress-callback invocations, the number of
login POSTs issued, and whether the listing fetch was reached. -/
structure StartOut where
  result : StartResult
  fs : FS
  fires : Nat
  loginPosts : Nat
  listingFetched : Bool
deriving DecidableEq

/-- Continuation of `Scraper.start` after the authentication step: fetch
the listing, extract PDF links, create the output directory, filter by
year, then run the downloads.  `posts` records how many login POSTs were
made.  Returns `none` exactly where Python raises (min/max of an empty
allowed-years set). -/
def startAfterAuth (env : Env) (allowed_years : List String)
    (module_code output_folder : String) (fs : FS) (posts : Nat) :
    Option StartOut :=
  if env.listingStatus ≠ 200 then
    some ⟨.err "Error: Unable to fetch exam papers", fs, 0, posts, true⟩
  else
    let papers := pdfLinks env.listingAnchors
    if papers = [] then
      some ⟨.err "No papers found for this module", fs, 0, posts, true⟩
    else
      let output_path := output_folder ++ "/" ++ module_code ++ "/papers"
      let fs1 := if fs.dirExists output_path then fs else fs.mkdir output_path
      let filtered := filterByYears allowed_years papers
      if filtered = [] then
        match strSetMin allowed_years, strSetMax allowed_years with
        | some mn, some mx =>
            some ⟨.err ("No papers found for this module in years " ++ mn ++ "-" ++ mx),
                  fs1, 0, posts, true⟩
        | _, _ => none
      else
        let r := runDownloads env output_folder module_code filtered fs1
        some ⟨.ok, r.1, r.2, posts, true⟩

/-- Model of `Scraper.start`: fetch and parse the landing page (its
status is never checked), POST credentials when a `form_build_id` input
is present and abort on a non-200 login response, then continue with the
listing/filter/download stages. -/
def start (env : Env) (allowed_years : List String)
    (module_code output_folder : String) (fs : FS) : Option StartOut :=
  match env.landing.formBuildId with
  | some _ =>
      if env.loginPostStatus ≠ 200 then
        some ⟨.err "Error: Invalid credentials", fs, 0, 1, false⟩
      else
        startAfterAuth env allowed_years module_code output_folder fs 1
  | none => startAfterAuth env allowed_years module_code output_folder fs 0

/-- The filtered paper list `start` computes from the environment. -/
def filteredPapers (env : Env) (allowed_years : List String) : List String :=
  filterByYears allowed_years (pdfLinks env.listingAnchors)

/-- One element of the `allowed_years` constructor argument: Python
callers pass ints or strings. -/
inductive YearVal where
  | int : Int → YearVal
  | str : String → YearVal

/-- Model of Python `str` applied to a year value. -/
def YearVal.toStr : YearVal → String
  | .int n => toString n
  | .str s => s

/-- Model of the `allowed_years` computation in `Scraper.__init__`:
`set(str(year) for year in range(2020, 2026))` when the argument is
`None`, else `set(str(y) for y in allowed_years)` (set semantics beyond
membership are irrelevant downstream: the filter only tests membership,
and duplicates do not change `any`, `min` or `max`). -/
def mkAllowedYears : Option (List YearVal) → List String
  | none => (List.range' 2020 6).map (fun y => toString y)
  | some ys => ys.map YearVal.toStr

/-! ## Helper lemmas -/

lemma download_paper_snd (env : Env) (url of mc : String) (fs : FS) :
    (download_paper env url of mc fs).2 = 1 := by
  simp only [download_paper]
  split
  · split <;> rfl
  · rfl

lemma runDownloads_snd (env : Env) (of mc : String) (ps : List String) (fs : FS) :
    (runDownloads env of mc ps fs).2 = ps.length := by
  induction ps generalizing fs with
  | nil => rfl
  | cons p rest ih =>
      simp only [runDownloads, download_paper_snd, ih, List.length_cons]
      omega

lemma download_paper_fail_fst (env : Env) (url of mc : String) (fs : FS)
    (h : (env.pdf url).statusCode ≠ 200) :
    (download_paper env url of mc fs).1 = fs := by
  simp only [download_paper, if_neg h]

lemma runDownloads_fail_fst (env : Env) (of mc : String) (ps : List String) (fs : FS)
    (h : ∀ u, (env.pdf u).statusCode ≠ 200) :
    (runDownloads env of mc ps fs).1 = fs := by
  induction ps generalizing fs with
  | nil => rfl
  | cons p rest ih =>
      simp only [runDownloads]
      rw [download_paper_fail_fst env p of mc fs (h p), ih]

lemma filterByYears_eq_filter (ys ps : List String) :
    filterByYears ys ps =
      ps.filter (fun p => (firstMatchingYear ys (lastSeg p)).isSome) := by
  induction ps with
  | nil => rfl
  | cons p rest ih =>
      simp only [filterByYears, List.filter_cons]
      cases h : firstMatchingYear ys (lastSeg p) with
      | none => simp [h, ih]
      | some y => simp [h, ih]

lemma firstMatchingYear_isSome_iff (ys : List String) (fn : String) :
    (firstMatchingYear ys fn).isSome = true ↔
      ∃ y ∈ ys, strContains fn y = true := by
  induction ys with
  | nil => simp [firstMatchingYear]
  | cons y rest ih =>
      simp only [firstMatchingYear]
      by_cases h : strContains fn y = true
      · simp only [if_pos h, Option.isSome_some, true_iff]
        exact ⟨y, List.mem_cons_self y rest, h⟩
      · rw [if_neg h, ih]
        constructor
        · rintro ⟨z, hz, hc⟩
          exact ⟨z, List.mem_cons_of_mem y hz, hc⟩
        · rintro ⟨z, hz, hc⟩
          rcases List.mem_cons.mp hz with rfl | hz
          · exact absurd hc h
          · exact ⟨z, hz, hc⟩

lemma mkdirIfAbsent_files (fs : FS) (p : String) :
    (if fs.dirExists p then fs else fs.mkdir p).files = fs.files := by
  split <;> rfl

lemma mkdirIfAbsent_dirExists (fs : FS) (p : String) :
    (if fs.dirExists p then fs else fs.mkdir p).dirExists p = true := by
  by_cases h : fs.dirExists p
  · rwa [if_pos h]
  · rw [if_neg h]
    simp [FS.mkdir, FS.dirExists]

lemma startAfterAuth_ok_fires (env : Env) (ys : List String) (mc of : String)
    (fs : FS) (posts : Nat) (out : StartOut)
    (h : startAfterAuth env ys mc of fs posts = some out)
    (hok : out.result = .ok) :
    out.fires = (filteredPapers env ys).length := by
  simp only [startAfterAuth] at h
  split at h
  · cases h; simp at hok
  · split at h
    · cases h; simp at hok
    · split at h
      · split at h
        · cases h; simp at hok
        · exact Option.noConfusion h
      · cases h
        simp only
        rw [runDownloads_snd]
        rfl

lemma startAfterAuth_posts (env : Env) (ys : List String) (mc of : String)
    (fs : FS) (posts : Nat) (out : StartOut)
    (h : startAfterAuth env ys mc of fs posts = some out) :
    out.loginPosts = posts ∧ out.listingFetched = true := by
  simp only [startAfterAuth] at h
  split at h
  · cases h; exact ⟨rfl, rfl⟩
  · split at h
    · cases h; exact ⟨rfl, rfl⟩
    · split at h
      · split at h
        · cases h; exact ⟨rfl, rfl⟩
        · exact Option.noConfusion h
      · cases h; exact ⟨rfl, rfl⟩

lemma startAfterAuth_all_fail (env : Env) (ys : List String) (mc of : String)
    (fs : FS) (posts : Nat)
    (hlist : env.listingStatus = 200)
    (hfail : ∀ u, (env.pdf u).statusCode ≠ 200)
    (hne : filteredPapers env ys ≠ []) :
    (startAfterAuth env ys mc of fs posts).map
        (fun o => (o.result, o.fires, o.fs.files)) =
      some (.ok, (filteredPapers env ys).length, fs.files) := by
  have hA : ¬(env.listingStatus ≠ 200) := by simp [hlist]
  have hB : pdfLinks env.listingAnchors ≠ [] := by
    intro h0
    exact hne (by simp [filteredPapers, h0, filterByYears])
  have hC : filterByYears ys (pdfLinks env.listingAnchors) ≠ [] := hne
  simp only [startAfterAuth, if_neg hA, if_neg hB, if_neg hC]
  rw [runDownloads_snd, runDownloads_fail_fst env of mc _ _ hfail]
  simp [mkdirIfAbsent_files, filteredPapers]

lemma startAfterAuth_nopapers (env : Env) (ys : List String) (mc of : String)
    (fs : FS) (posts : Nat)
    (hlist : env.listingStatus = 200)
    (hp : pdfLinks env.listingAnchors = []) :
    startAfterAuth env ys mc of fs posts =
      some ⟨.err "No papers found for this module", fs, 0, posts, true⟩ := by
  have hA : ¬(env.listingStatus ≠ 200) := by simp [hlist]
  simp only [startAfterAuth, if_neg hA, if_pos hp]

lemma startAfterAuth_yearabort (env : Env) (ys : List String) (mc of : String)
    (fs : FS) (posts : Nat)
    (hlist : env.listingStatus = 200)
    (hpdf : pdfLinks env.listingAnchors ≠ [])
    (hfilt : filteredPapers env ys = [])
    (mn mx : String) (hmn : strSetMin ys = some mn) (hmx : strSetMax ys = some mx) :
    startAfterAuth env ys mc of fs posts =
      some ⟨.err ("No papers found for this module in years " ++ mn ++ "-" ++ mx),
            if fs.dirExists (of ++ "/" ++ mc ++ "/papers") then fs
            else fs.mkdir (of ++ "/" ++ mc ++ "/papers"),
            0, posts, true⟩ := by
  have hA : ¬(env.listingStatus ≠ 200) := by simp [hlist]
  have hC : filterByYears ys (pdfLinks env.listingAnchors) = [] := hfilt
  simp only [startAfterAuth, if_neg hA, if_neg hpdf, if_pos hC, hmn, hmx]

lemma start_none (env : Env) (ys : List String) (mc of : String) (fs : FS)
    (hform : env.landing.formBuildId = none) :
    start env ys mc of fs = startAfterAuth env ys mc of fs 0 := by
  unfold start
  rw [hform]

lemma start_auth_ok (env : Env) (ys : List String) (mc of : String) (fs : FS)
    (hauth : ∀ v, env.landing.formBuildId = some v → env.loginPostStatus = 200) :
    start env ys mc of fs =
      startAfterAuth env ys mc of fs
        (if env.landing.formBuildId.isSome then 1 else 0) := by
  cases hfb : env.landing.formBuildId with
  | none =>
      unfold start
      rw [hfb]
      rfl
  | some v =>
      have hp : ¬(env.loginPostStatus ≠ 200) := by simp [hauth v hfb]
      unfold start
      rw [hfb, if_neg hp]
      rfl

/-! ## Concrete environments used by the witnesses and counterexample -/

/-- The empty filesystem. -/
def fs0 : FS := ⟨[], []⟩

/-- Already-authenticated portal with one 2021 paper that downloads fine. -/
def envC1 : Env := ⟨⟨none⟩, 200, 200, ["a/p_2021.pdf"], fun _ => ⟨200, [5]⟩⟩

/-- The outcome of `start envC1 ["2021"] "CS101" "out" fs0`. -/
def outC1 : StartOut :=
  ⟨.ok, ⟨["out/CS101/papers"], [("out/CS101/papers/p_2021.pdf", [5])]⟩, 1, 0, true⟩

/-- Environment whose every PDF GET succeeds with body `[7]`. -/
def env3 : Env := ⟨⟨none⟩, 200, 200, [], fun _ => ⟨200, [7]⟩⟩

/-- Filesystem already holding the target file of `x/a.pdf` under out/CS. -/
def fs3 : FS := ⟨[], [("out/CS/papers/a.pdf", [1])]⟩

/-- Already-authenticated portal with one 2021 paper whose GET fails. -/
def env4 : Env := ⟨⟨none⟩, 200, 200, ["a/p_2021.pdf"], fun _ => ⟨404, []⟩⟩

/-- Already-authenticated portal listing only a 2019 paper. -/
def env5 : Env := ⟨⟨none⟩, 200, 200, ["a/exam_2019_may.pdf"], fun _ => ⟨200, []⟩⟩

/-- Portal with a login form whose credential POST returns 403. -/
def env6 : Env := ⟨⟨some "tok"⟩, 403, 200, [], fun _ => ⟨200, []⟩⟩

/-- Already-authenticated portal whose listing has no PDF anchor. -/
def env7 : Env := ⟨⟨none⟩, 200, 200, ["notes.txt"], fun _ => ⟨200, []⟩⟩

/-- Already-authenticated portal with one 2021 paper whose GET fails. -/
def env8 : Env := ⟨⟨none⟩, 200, 200, ["a/p_2021.pdf"], fun _ => ⟨503, []⟩⟩

/-- The outcome of `start env8 ["2021"] "CS101" "out" fs0`. -/
def out8 : StartOut := ⟨.ok, ⟨["out/CS101/papers"], []⟩, 1, 0, true⟩

/-! ## Claims -/

/-- C1: for every run of `start` that reaches the download stage with N
filtered links, the progress callback fires exactly N times:
`download_paper` invokes it exactly once in every branch (write, skip, or
non-200), the download stage performs one invocation per task, and every
successful `start` run fires once per filtered link. -/
theorem progress_invariant :
    (∀ env url of mc fs, (download_paper env url of mc fs).2 = 1) ∧
    (∀ env of mc ps fs, (runDownloads env of mc ps fs).2 = ps.length) ∧
    (∀ env ys mc of fs out, start env ys mc of fs = some out →
      out.result = .ok → out.fires = (filteredPapers env ys).length) := by
  refine ⟨download_paper_snd, runDownloads_snd, ?_⟩
  intro env ys mc of fs out h hok
  cases hfb : env.landing.formBuildId with
  | none =>
      rw [start_none env ys mc of fs hfb] at h
      exact startAfterAuth_ok_fires env ys mc of fs 0 out h hok
  | some v =>
      unfold start at h
      rw [hfb] at h
      by_cases hpost : env.loginPostStatus ≠ 200
      · rw [if_pos hpost] at h
        cases h
        simp at hok
      · rw [if_neg hpost] at h
        exact startAfterAuth_ok_fires env ys mc of fs 1 out h hok

/-- C1 witness: a run with one filtered link fires the callback once. -/
theorem progress_invariant_witness :
    outC1.fires = (filteredPapers envC1 ["2021"]).length :=
  progress_invariant.2.2 envC1 ["2021"] "CS101" "out" fs0 outC1
    (by decide) (by decide)

/-- C2: with allowed years 2021/2022, exactly the 2021 candidate survives;
in general a candidate is kept iff some allowed-year string is a raw
substring of its final path segment, and the inner loop yields the first
matching year. -/
theorem year_filter_correct :
    filterByYears ["2021", "2022"]
        ["exam_2021_may.pdf", "exam_2019_may.pdf"] = ["exam_2021_may.pdf"] ∧
    (∀ ys ps p, p ∈ filterByYears ys ps ↔
        p ∈ ps ∧ ∃ y ∈ ys, strContains (lastSeg p) y = true) ∧
    (∀ y ys fn, strContains fn y = true →
        firstMatchingYear (y :: ys) fn = some y) := by
  refine ⟨by decide, ?_, ?_⟩
  · intro ys ps p
    rw [filterByYears_eq_filter, List.mem_filter]
    simp only [firstMatchingYear_isSome_iff]
  · intro y ys fn h
    simp [firstMatchingYear, h]

/-- C2 witness: the first matching year is found on a concrete filename. -/
theorem year_filter_correct_witness :
    firstMatchingYear ["2021"] "exam_2021_may.pdf" = some "2021" :=
  year_filter_correct.2.2 "2021" [] "exam_2021_may.pdf" (by decide)

/-- C3: a 200 GET against a pre-existing target file performs no write and
fires the callback exactly once, and a second invocation against the same
target behaves identically. -/
theorem download_skip_idempotent (env : Env) (url of mc : String) (fs : FS)
    (h200 : (env.pdf url).statusCode = 200)
    (hfile : fs.isFile (of ++ "/" ++ mc ++ "/papers/" ++ lastSeg url) = true) :
    download_paper env url of mc fs = (fs, 1) ∧
    download_paper env url of mc (download_paper env url of mc fs).1 = (fs, 1) := by
  have h1 : download_paper env url of mc fs = (fs, 1) := by
    simp [download_paper, h200, hfile]
  refine ⟨h1, ?_⟩
  rw [h1]
  exact h1

/-- C3 witness: skipping a pre-existing file on a concrete filesystem. -/
theorem download_skip_idempotent_witness :
    download_paper env3 "x/a.pdf" "out" "CS" fs3 = (fs3, 1) :=
  (download_skip_idempotent env3 "x/a.pdf" "out" "CS" fs3
    (by decide) (by decide)).1

/-- C4: when authentication (if attempted) and the listing fetch return
200 and at least one link survives the year filter, `start` returns True
even when every PDF GET fails, writes no file, and still fires the
callback once per filtered link. -/
theorem per_download_failures_not_fatal (env : Env) (ys : List String)
    (mc of : String) (fs : FS)
    (hauth : ∀ v, env.landing.formBuildId = some v → env.loginPostStatus = 200)
    (hlist : env.listingStatus = 200)
    (hfail : ∀ u, (env.pdf u).statusCode ≠ 200)
    (hne : filteredPapers env ys ≠ []) :
    (start env ys mc of fs).map (fun o => (o.result, o.fires, o.fs.files)) =
      some (.ok, (filteredPapers env ys).length, fs.files) := by
  rw [start_auth_ok env ys mc of fs hauth]
  exact startAfterAuth_all_fail env ys mc of fs _ hlist hfail hne

/-- C4 witness: every GET fails yet the concrete run returns True. -/
theorem per_download_failures_not_fatal_witness :
    (start env4 ["2021"] "CS101" "out" fs0).map
        (fun o => (o.result, o.fires, o.fs.files)) =
      some (.ok, (filteredPapers env4 ["2021"]).length, fs0.files) :=
  per_download_failures_not_fatal env4 ["2021"] "CS101" "out" fs0
    (fun v h => Option.noConfusion h) (by decide)
    (fun u => show (404 : Nat) ≠ 200 by decide) (by decide)

/-- C5 counterexample: on a concrete run that aborts at the year filter,
the output directory HAS been created by that call (it was absent in the
initial filesystem), contrary to the claim. -/
theorem year_filter_abort_mkdir_cex :
    (start env5 ["2021"] "CS101" "out" fs0).map
        (fun o => (o.result, o.fs.dirExists "out/CS101/papers")) =
      some (.err "No papers found for this module in years 2021-2021", true) ∧
    fs0.dirExists "out/CS101/papers" = false := by decide

/-- C5 amended: when `start` aborts because no candidate survives the
year filter (returning the error naming the min and max allowed year),
the output directory has already been created by that call, because
directory creation precedes the year filter. -/
theorem year_filter_abort_after_mkdir (env : Env) (ys : List String)
    (mc of : String) (fs : FS)
    (hauth : ∀ v, env.landing.formBuildId = some v → env.loginPostStatus = 200)
    (hlist : env.listingStatus = 200)
    (hpdf : pdfLinks env.listingAnchors ≠ [])
    (hfilt : filteredPapers env ys = [])
    (mn mx : String) (hmn : strSetMin ys = some mn)
    (hmx : strSetMax ys = some mx) :
    (start env ys mc of fs).map
        (fun o => (o.result, o.fs.dirExists (of ++ "/" ++ mc ++ "/papers"))) =
      some (.err ("No papers found for this module in years " ++ mn ++ "-" ++ mx),
            true) := by
  rw [start_auth_ok env ys mc of fs hauth,
    startAfterAuth_yearabort env ys mc of fs _ hlist hpdf hfilt mn mx hmn hmx]
  simp [mkdirIfAbsent_dirExists]

/-- C5 witness: the amended statement on the concrete aborting run. -/
theorem year_filter_abort_after_mkdir_witness :
    (start env5 ["2021"] "CS101" "out" fs0).map
        (fun o => (o.result, o.fs.dirExists ("out" ++ "/" ++ "CS101" ++ "/papers"))) =
      some (.err ("No papers found for this module in years " ++ "2021" ++ "-" ++ "2021"),
            true) :=
  year_filter_abort_after_mkdir env5 ["2021"] "CS101" "out" fs0
    (fun v h => Option.noConfusion h) (by decide) (by decide) (by decide)
    "2021" "2021" (by decide) (by decide)

/-- C6: a present login form with a non-200 POST makes `start` return
"Error: Invalid credentials" immediately, after exactly one login POST,
with the filesystem untouched; that string contains "Invalid credentials". -/
theorem invalid_credentials_abort (env : Env) (ys : List String)
    (mc of : String) (fs : FS) (v : String)
    (hform : env.landing.formBuildId = some v)
    (hpost : env.loginPostStatus ≠ 200) :
    start env ys mc of fs =
      some ⟨.err "Error: Invalid credentials", fs, 0, 1, false⟩ ∧
    strContains "Error: Invalid credentials" "Invalid credentials" = true := by
  constructor
  · unfold start
    rw [hform, if_pos hpost]
  · decide

/-- C6 witness: a concrete 403 credential POST aborts with the message. -/
theorem invalid_credentials_abort_witness :
    start env6 ["2021"] "CS101" "out" fs0 =
      some ⟨.err "Error: Invalid credentials", fs0, 0, 1, false⟩ :=
  (invalid_credentials_abort env6 ["2021"] "CS101" "out" fs0 "tok"
    rfl (by decide)).1

/-- C7: when no anchor href ends in ".pdf", `start` returns the
no-papers message and leaves the filesystem untouched. -/
theorem no_pdf_anchors_abort (env : Env) (ys : List String)
    (mc of : String) (fs : FS)
    (hauth : ∀ v, env.landing.formBuildId = some v → env.loginPostStatus = 200)
    (hlist : env.listingStatus = 200)
    (hnopdf : ∀ a ∈ env.listingAnchors, strEndsWith a ".pdf" = false) :
    start env ys mc of fs =
      some ⟨.err "No papers found for this module", fs, 0,
            if env.landing.formBuildId.isSome then 1 else 0, true⟩ := by
  have hp : pdfLinks env.listingAnchors = [] := by
    rw [pdfLinks, List.filter_eq_nil_iff]
    intro a ha
    simp [hnopdf a ha]
  rw [start_auth_ok env ys mc of fs hauth]
  exact startAfterAuth_nopapers env ys mc of fs _ hlist hp

/-- C7 witness: a concrete listing without PDF anchors aborts untouched. -/
theorem no_pdf_anchors_abort_witness :
    start env7 ["2021"] "CS101" "out" fs0 =
      some ⟨.err "No papers found for this module", fs0, 0,
            if env7.landing.formBuildId.isSome then 1 else 0, true⟩ :=
  no_pdf_anchors_abort env7 ["2021"] "CS101" "out" fs0
    (fun v h => Option.noConfusion h) (by decide) (by decide)

/-- C8: when the landing page has no `form_build_id` input, `start` issues
no login POST and proceeds to the listing fetch. -/
theorem no_login_form_skips_post (env : Env) (ys : List String)
    (mc of : String) (fs : FS)
    (hform : env.landing.formBuildId = none) :
    ∀ out, start env ys mc of fs = some out →
      out.loginPosts = 0 ∧ out.listingFetched = true := by
  intro out h
  rw [start_none env ys mc of fs hform] at h
  exact startAfterAuth_posts env ys mc of fs 0 out h

/-- C8 witness: a concrete form-less run issues no POST and fetches the
listing. -/
theorem no_login_form_skips_post_witness :
    out8.loginPosts = 0 ∧ out8.listingFetched = true :=
  no_login_form_skips_post env8 ["2021"] "CS101" "out" fs0 rfl out8
    (by decide)

/-- C9: the filtered paper list is an order-preserving subsequence of the
extracted PDF links, and each candidate contributes at most one entry even
when several allowed years match its filename. -/
theorem filtered_subsequence (ys ps : List String) :
    List.Sublist (filterByYears ys ps) ps ∧
    ∀ p, (filterByYears ys ps).count p ≤ ps.count p := by
  have h : List.Sublist (filterByYears ys ps) ps := by
    rw [filterByYears_eq_filter]
    exact List.filter_sublist ps
  exact ⟨h, fun p => h.count_le p⟩

/-- C10: `__init__` applies `str` to every supplied year, so numeric years
filter identically to their string forms, and the `None` default is
exactly the strings "2020" through "2025". -/
theorem init_allowed_years :
    mkAllowedYears none = ["2020", "2021", "2022", "2023", "2024", "2025"] ∧
    mkAllowedYears (some [.int 2021]) = mkAllowedYears (some [.str "2021"]) ∧
    ∀ ps, filterByYears (mkAllowedYears (some [.int 2021])) ps =
      filterByYears (mkAllowedYears (some [.str "2021"])) ps := by
  refine ⟨by decide, by decide, ?_⟩
  intro ps
  have h : mkAllowedYears (some [.int 2021]) =
      mkAllowedYears (some [.str "2021"]) := by decide
  rw [h]

end MPP
